import Mathlib

/-!
Shallow embedding of `src/electron/lib/lazer-database.ts` (class
`OsuLazerDatabase` and the Realm record model it reads), together with
theorems about the beatmap extraction pipeline.

Modelling conventions:
* Realm "string?" properties and TypeScript `string | undefined` values are
  both modelled as `Option String`; JS `null` and `undefined` behave
  identically in every operation this module performs on them
  (optional chaining short-circuits on both, and `null == undefined` is
  `true` under the loose equality used in `files.find`), so they are
  conflated into `none`.
* Realm `double` properties (`Length`, `BPM`) are only copied, never computed
  with, so they are modelled as `ℚ`.
* The file system visible to `glob` is modelled as a list of existing
  absolute paths.  The patterns built by `getAsBeatmapData` contain no glob
  metacharacters (a hash, or the literal text `undefined`), and for such a
  pattern `glob.glob` returns the path exactly when it exists on disk, i.e.
  exactly when it is a member of the list.
* `path.join(app.getPath("appData"), "osu", "files")` is modelled with the
  POSIX separator.
-/

namespace Osutify

/-- JS template-literal interpolation of a `string | undefined` value:
`undefined` prints as the literal text `"undefined"`. -/
def jsStr : Option String → String
  | none => "undefined"
  | some s => s

/-- JS loose equality `==` between `f.Filename : string | null` and
`first?.Metadata.AudioFile : string | undefined`: two strings compare by
contents, `null == undefined` is `true`, and a string never equals
`null`/`undefined`. -/
def looseEq : Option String → Option String → Bool
  | none, none => true
  | some a, some b => a == b
  | _, _ => false

/-- Record model of `BeatmapMetadata` (fields read by `getAsBeatmapData`);
every property is declared `string?` in the schema. -/
structure BeatmapMetadata where
  Title : Option String
  TitleUnicode : Option String
  Artist : Option String
  ArtistUnicode : Option String
  Tags : Option String
  AudioFile : Option String
  BackgroundFile : Option String
deriving Repr, DecidableEq

/-- Record model of `Beatmap` (fields read by `getAsBeatmapData`):
`Metadata`, `Length : double`, `BPM : double`. -/
structure Beatmap where
  Metadata : BeatmapMetadata
  Length : ℚ
  BPM : ℚ
deriving Repr, DecidableEq

/-- Record model of `File`: just the content hash (`"string?"`). -/
structure File where
  Hash : Option String
deriving Repr, DecidableEq

/-- Record model of `RealmNamedFileUsage`: a logical filename paired with a
`File` record. -/
structure RealmNamedFileUsage where
  File : File
  Filename : Option String
deriving Repr, DecidableEq

/-- Record model of `BeatmapSet` (fields read by `getAsBeatmapData`). -/
structure BeatmapSet where
  Beatmaps : List Beatmap
  OnlineID : Int
  Hash : Option String
  Files : List RealmNamedFileUsage
deriving Repr, DecidableEq

/-- The output type `OsuBeatmapData` of `getAsBeatmapData`, field for field. -/
structure OsuBeatmapData where
  id : Int
  artist : Option String
  artist_unicode : Option String
  title : Option String
  title_unicode : Option String
  hash : Option String
  audio : Option String
  audio_hash : Option String
  audio_path : Option String
  background : Option String
  background_hash : Option String
  background_path : Option String
  tags : Option String
  total_time : Option ℚ
  bpm : Option ℚ
deriving Repr, DecidableEq

/-- The base directory `join(app.getPath("appData"), "osu", "files")`. -/
def osuFilesRoot (appData : String) : String :=
  appData ++ "/osu/files"

/-- The glob pattern built in `getAsBeatmapData` for one asset hash:
the template literal
`` `${base}/${hash?.substring(0,1)}/${hash?.substring(0,2)}/${hash}` ``.
When the hash is absent, each interpolated component is the literal text
`"undefined"`; `substring(0, n)` is `String.take n`. -/
def globPattern (root : String) (hash : Option String) : String :=
  root ++ "/" ++ jsStr (hash.map (fun h => h.take 1)) ++ "/" ++
    jsStr (hash.map (fun h => h.take 2)) ++ "/" ++ jsStr hash

/-- `replace(/\\/g, "/")`: every backslash character becomes a forward
slash. -/
def normalizeSeps (s : String) : String :=
  ⟨s.data.map (fun c => if c = '\\' then '/' else c)⟩

/-- `glob.glob(pattern, { absolute: true }).then(p => p.map(... replace ...))`
for the metacharacter-free patterns used here: the existing paths equal to
the pattern, with separators normalized. -/
def globSearch (fs : List String) (pattern : String) : List String :=
  (fs.filter (fun p => p == pattern)).map normalizeSeps

/-- One asset-path resolution step of `getAsBeatmapData`: glob for the
sharded pattern of `hash` under `root`. -/
def resolvePaths (fs : List String) (root : String) (hash : Option String) :
    List String :=
  globSearch fs (globPattern root hash)

/-- The glob searches issued by one asset-path resolution step: the source
always issues exactly one `glob.glob` call, absent hash or not. -/
def resolveSearches (root : String) (hash : Option String) : List String :=
  [globPattern root hash]

/-- The body of the `for (const set of ...)` loop building one
`OsuBeatmapData` from one `BeatmapSet` (lines 68-121 of the source). -/
def extractSet (fs : List String) (root : String) (set : BeatmapSet) :
    OsuBeatmapData :=
  let first := set.Beatmaps.head?
  let files := set.Files
  let audioHash :=
    (files.find? (fun f =>
      looseEq f.Filename (first.bind (fun b => b.Metadata.AudioFile)))).bind
      (fun f => f.File.Hash)
  let audioPaths := resolvePaths fs root audioHash
  let backgroundHash :=
    (files.find? (fun f =>
      looseEq f.Filename (first.bind (fun b => b.Metadata.BackgroundFile)))).bind
      (fun f => f.File.Hash)
  let backgroundPaths := resolvePaths fs root backgroundHash
  { id := set.OnlineID
    artist := first.bind (fun b => b.Metadata.Artist)
    artist_unicode := first.bind (fun b => b.Metadata.ArtistUnicode)
    title := first.bind (fun b => b.Metadata.Title)
    title_unicode := first.bind (fun b => b.Metadata.TitleUnicode)
    audio := first.bind (fun b => b.Metadata.AudioFile)
    audio_hash := audioHash
    audio_path := audioPaths[0]?
    background := first.bind (fun b => b.Metadata.BackgroundFile)
    background_hash := backgroundHash
    background_path := backgroundPaths[0]?
    hash := set.Hash
    tags := first.bind (fun b => b.Metadata.Tags)
    total_time := first.map (fun b => b.Length)
    bpm := first.map (fun b => b.BPM) }

/-- `sendDebugData`: forwards the message to the window's webContents when a
window is attached, otherwise does nothing.  The result is the list of
messages actually emitted on the `debug-data` channel by this call. -/
def sendDebugData (window : Bool) (data : String) : List String :=
  if window then [data] else []

/-- The progress string
`` `Loading: ${extracted.title} (${count} / ${total})` ``. -/
def progressMsg (title : Option String) (count total : Nat) : String :=
  "Loading: " ++ jsStr title ++ " (" ++ toString count ++ " / " ++
    toString total ++ ")"

/-- The extraction loop of `getAsBeatmapData`: walks the sets in storage
order threading the running counter, returning the accumulated output
records and the notifications emitted on the `debug-data` channel during the
loop.  `total` is `this.connection.objects(BeatmapSet).length`, which is
constant during the pass. -/
def extractLoop (window : Bool) (fs : List String) (root : String)
    (total : Nat) : List BeatmapSet → Nat → List OsuBeatmapData × List String
  | [], _ => ([], [])
  | set :: rest, count =>
    let extracted := extractSet fs root set
    let c := count + 1
    let notifs :=
      if c % 50 = 0 then sendDebugData window (progressMsg extracted.title c total)
      else []
    let r := extractLoop window fs root total rest c
    (extracted :: r.1, notifs ++ r.2)

/-- The progress emissions of the loop paired with the counter value each one
carries: entry `(c, m)` means the loop's counter was `c` when the progress
message `m` was built.  Mapping `Prod.snd` over this list gives exactly the
loop's notification trace when a window is attached. -/
def extractTrace (fs : List String) (root : String) (total : Nat) :
    List BeatmapSet → Nat → List (Nat × String)
  | [], _ => []
  | set :: rest, count =>
    let c := count + 1
    (if c % 50 = 0 then [(c, progressMsg (extractSet fs root set).title c total)]
     else []) ++ extractTrace fs root total rest c

/-- The state a `Realm` connection contributes to this module: the stored
`BeatmapSet` records (in storage order) and whether the realm is still open.
`objects` on a closed realm throws; on an open realm it returns the records
in storage order. -/
structure RealmConn where
  sets : List BeatmapSet
  isOpen : Bool
deriving Repr, DecidableEq

/-- `Realm.objects`: record access on the connection.  Realm rejects access
after `close`; an open connection yields the stored records. -/
def RealmConn.objects (c : RealmConn) : Except String (List BeatmapSet) :=
  if c.isOpen then Except.ok c.sets
  else Except.error "Cannot access realm that has been closed."

/-- The `OsuLazerDatabase` instance state: the `connection` field (nullable)
and whether a `BrowserWindow` was attached (only its presence is observable
through `sendDebugData`). -/
structure OsuLazerDatabase where
  connection : Option RealmConn
  window : Bool
deriving Repr, DecidableEq

/-- `new OsuLazerDatabase(window)`: the constructor sets `connection` to
null. -/
def newDatabase (window : Bool) : OsuLazerDatabase :=
  { connection := none, window := window }

/-- The state produced by a successful `OsuLazerDatabase.open`: a live
connection over the given stored records. -/
def openDb (sets : List BeatmapSet) (window : Bool) : OsuLazerDatabase :=
  { connection := some { sets := sets, isOpen := true }, window := window }

/-- `getObjects`: returns `connection.objects(type)` when a connection is
present, otherwise throws `"You should open connection at first."`.
Modelled at record type `BeatmapSet`, the only type this repository reads. -/
def getObjects (db : OsuLazerDatabase) : Except String (List BeatmapSet) :=
  match db.connection with
  | none => Except.error "You should open connection at first."
  | some conn => conn.objects

/-- `getAsBeatmapData`: checks the connection, walks every `BeatmapSet` in
storage order building one `OsuBeatmapData` each, then emits the terminal
`"Data loaded."` notification.  Returns the output records together with the
full notification trace of the call. -/
def getAsBeatmapData (fs : List String) (appData : String)
    (db : OsuLazerDatabase) :
    Except String (List OsuBeatmapData × List String) :=
  match db.connection with
  | none => Except.error "You should open connection at first."
  | some conn =>
    match conn.objects with
    | Except.error e => Except.error e
    | Except.ok sets =>
      let root := osuFilesRoot appData
      let r := extractLoop db.window fs root sets.length sets 0
      Except.ok (r.1, r.2 ++ sendDebugData db.window "Data loaded.")

/-- `close`: calls `connection.close()` when a connection is present; the
`connection` field itself is never reset to null. -/
def close (db : OsuLazerDatabase) : OsuLazerDatabase :=
  match db.connection with
  | some conn => { db with connection := some { conn with isOpen := false } }
  | none => db

/-! ### Concrete stores used as witnesses and counterexamples -/

/-- The metadata of the end-to-end scenario: audio file `track.mp3`,
background file `bg.jpg`. -/
def c2Metadata : BeatmapMetadata :=
  { Title := some "Song", TitleUnicode := some "SongU", Artist := some "Artist",
    ArtistUnicode := some "ArtistU", Tags := some "tags",
    AudioFile := some "track.mp3", BackgroundFile := some "bg.jpg" }

/-- The single beatmap of the end-to-end scenario: duration 180.5, tempo 174. -/
def c2Beatmap : Beatmap :=
  { Metadata := c2Metadata, Length := 180.5, BPM := 174 }

/-- The single beatmap set of the end-to-end scenario: online ID 42, hash
`abc`, with the two named file usages mapping `track.mp3` to hash `deadbeef`
and `bg.jpg` to hash `f00dface`. -/
def c2Set : BeatmapSet :=
  { Beatmaps := [c2Beatmap], OnlineID := 42, Hash := some "abc",
    Files := [{ File := { Hash := some "deadbeef" }, Filename := some "track.mp3" },
              { File := { Hash := some "f00dface" }, Filename := some "bg.jpg" }] }

/-- The file system of the end-to-end scenario: only
`<root>/files/d/de/deadbeef` exists. -/
def c2Fs : List String := ["/AppData/osu/files/d/de/deadbeef"]

/-- A set with an empty beatmap collection and no file usages. -/
def gapSet : BeatmapSet :=
  { Beatmaps := [], OnlineID := 7, Hash := some "h", Files := [] }

/-- A pathological file system containing a file at the literal degenerate
path that the extractor globs for when a hash is absent. -/
def gapFs : List String := ["/A/osu/files/undefined/undefined/undefined"]

/-- `c2Set` with its `Files` sub-collection permuted (reversed). -/
def c2SetPermuted : BeatmapSet :=
  { Beatmaps := [c2Beatmap], OnlineID := 42, Hash := some "abc",
    Files := [{ File := { Hash := some "f00dface" }, Filename := some "bg.jpg" },
              { File := { Hash := some "deadbeef" }, Filename := some "track.mp3" }] }

/-- Pointwise relation between two sets: same identity fields, with the
`Beatmaps` and `Files` sub-collections permuted. -/
def subPerm (s t : BeatmapSet) : Prop :=
  s.OnlineID = t.OnlineID ∧ s.Hash = t.Hash ∧
    s.Beatmaps.Perm t.Beatmaps ∧ s.Files.Perm t.Files

/-! ### Helper lemmas about the extraction loop -/

/-- The output records of the loop are the per-set extraction mapped over the
sets in storage order, independently of the counter and of the window. -/
theorem extractLoop_fst (w : Bool) (fs : List String) (root : String)
    (total : Nat) (sets : List BeatmapSet) (count : Nat) :
    (extractLoop w fs root total sets count).1 = sets.map (extractSet fs root) := by
  induction sets generalizing count with
  | nil => rfl
  | cons s rest ih => simp [extractLoop, ih]

/-- With a window attached, the loop's notification trace is the message
component of `extractTrace`. -/
theorem extractLoop_snd_trace (fs : List String) (root : String) (total : Nat)
    (sets : List BeatmapSet) (count : Nat) :
    (extractLoop true fs root total sets count).2 =
      (extractTrace fs root total sets count).map Prod.snd := by
  induction sets generalizing count with
  | nil => rfl
  | cons s rest ih =>
    simp only [extractLoop, extractTrace, sendDebugData, if_true]
    split <;> simp [ih]

/-- Without a window, the loop emits nothing. -/
theorem extractLoop_snd_noWindow (fs : List String) (root : String)
    (total : Nat) (sets : List BeatmapSet) (count : Nat) :
    (extractLoop false fs root total sets count).2 = [] := by
  induction sets generalizing count with
  | nil => rfl
  | cons s rest ih =>
    simp only [extractLoop, sendDebugData, if_false]
    split <;> simp [ih]

/-- Every entry of the progress trace carries a counter that is a multiple of
50, lies strictly above the starting counter and within the processed range,
and its message is the progress string built from that counter. -/
theorem extractTrace_mem (fs : List String) (root : String) (total : Nat)
    (sets : List BeatmapSet) (count : Nat) (p : Nat × String)
    (hp : p ∈ extractTrace fs root total sets count) :
    p.1 % 50 = 0 ∧ count < p.1 ∧ p.1 ≤ count + sets.length ∧
      ∃ t, p.2 = progressMsg t p.1 total := by
  induction sets generalizing count with
  | nil => simp [extractTrace] at hp
  | cons s rest ih =>
    simp only [extractTrace, List.mem_append] at hp
    rcases hp with hp | hp
    · by_cases h : (count + 1) % 50 = 0
      · simp only [h, if_pos, List.mem_singleton] at hp
        subst hp
        exact ⟨h, Nat.lt_succ_self count, by simp, ⟨_, rfl⟩⟩
      · simp [h] at hp
    · obtain ⟨h1, h2, h3, h4⟩ := ih (count + 1) hp
      exact ⟨h1, Nat.lt_of_succ_lt h2, by simp only [List.length_cons]; omega, h4⟩

/-- The counters in the progress trace are strictly increasing. -/
theorem extractTrace_pairwise (fs : List String) (root : String) (total : Nat)
    (sets : List BeatmapSet) (count : Nat) :
    (extractTrace fs root total sets count).Pairwise (fun p q => p.1 < q.1) := by
  induction sets generalizing count with
  | nil => simp [extractTrace]
  | cons s rest ih =>
    by_cases h : (count + 1) % 50 = 0
    · simp only [extractTrace, h, if_pos, List.singleton_append]
      refine List.Pairwise.cons ?_ (ih (count + 1))
      intro q hq
      exact (extractTrace_mem fs root total rest (count + 1) q hq).2.1
    · simpa [extractTrace, h] using ih (count + 1)

/-- The progress trace fires once per multiple of 50 crossed by the counter:
starting at `count`, over `sets.length` further sets, that is
`(count + sets.length) / 50 - count / 50` times. -/
theorem extractTrace_length (fs : List String) (root : String) (total : Nat)
    (sets : List BeatmapSet) (count : Nat) :
    (extractTrace fs root total sets count).length =
      (count + sets.length) / 50 - count / 50 := by
  induction sets generalizing count with
  | nil => simp [extractTrace]
  | cons s rest ih =>
    have hsucc : (count + 1) / 50 = count / 50 + if 50 ∣ count + 1 then 1 else 0 :=
      Nat.succ_div count 50
    have hle : (count + 1) / 50 ≤ (count + 1 + rest.length) / 50 :=
      Nat.div_le_div_right (Nat.le_add_right _ _)
    have hih := ih (count + 1)
    by_cases h : (count + 1) % 50 = 0
    · have hdvd : 50 ∣ count + 1 := Nat.dvd_of_mod_eq_zero h
      rw [if_pos hdvd] at hsucc
      simp only [extractTrace, h, if_pos, List.singleton_append, List.length_cons,
        List.length_cons, hih]
      omega
    · have hndvd : ¬ 50 ∣ count + 1 := fun hd => h (Nat.mod_eq_zero_of_dvd hd)
      rw [if_neg hndvd] at hsucc
      simp only [extractTrace, h, if_neg, not_false_iff, List.nil_append, hih,
        List.length_cons]
      omega

/-- A glob for a pattern matching nothing on disk returns the empty list. -/
theorem globSearch_eq_nil (fs : List String) (pat : String) (h : pat ∉ fs) :
    globSearch fs pat = [] := by
  unfold globSearch
  rw [List.filter_eq_nil_iff.mpr, List.map_nil]
  intro a ha
  simp only [beq_iff_eq]
  exact fun e => h (e ▸ ha)

/-- String append is associative (over the character lists). -/
theorem stringAppend_assoc (a b c : String) : a ++ b ++ c = a ++ (b ++ c) :=
  String.append_assoc a b c

/-- The degenerate glob pattern built for an absent hash: every interpolated
component is the literal text `undefined`. -/
theorem globPattern_none (root : String) :
    globPattern root none = root ++ "/undefined/undefined/undefined" := by
  show root ++ "/" ++ "undefined" ++ "/" ++ "undefined" ++ "/" ++ "undefined" = _
  rw [stringAppend_assoc, stringAppend_assoc, stringAppend_assoc,
    stringAppend_assoc, stringAppend_assoc]
  rfl

/-! ### Claim theorems -/

/-- C1: for every `BeatmapSet` whose `Beatmaps` collection is non-empty, the
extracted record's artist, artist_unicode, title, title_unicode, tags,
total_time and bpm are those of the first element of the collection (and of
its `Metadata`), never of any other element. -/
theorem primary_beatmap_fields (fs : List String) (root : String)
    (set : BeatmapSet) (b : Beatmap) (bs : List Beatmap)
    (h : set.Beatmaps = b :: bs) :
    (extractSet fs root set).artist = b.Metadata.Artist ∧
      (extractSet fs root set).artist_unicode = b.Metadata.ArtistUnicode ∧
      (extractSet fs root set).title = b.Metadata.Title ∧
      (extractSet fs root set).title_unicode = b.Metadata.TitleUnicode ∧
      (extractSet fs root set).tags = b.Metadata.Tags ∧
      (extractSet fs root set).total_time = some b.Length ∧
      (extractSet fs root set).bpm = some b.BPM := by
  simp [extractSet, h]

/-- Witness for C1 at the concrete scenario store. -/
theorem primary_beatmap_fields_witness :
    (extractSet c2Fs "/AppData/osu/files" c2Set).artist = c2Beatmap.Metadata.Artist ∧
      (extractSet c2Fs "/AppData/osu/files" c2Set).artist_unicode =
        c2Beatmap.Metadata.ArtistUnicode ∧
      (extractSet c2Fs "/AppData/osu/files" c2Set).title = c2Beatmap.Metadata.Title ∧
      (extractSet c2Fs "/AppData/osu/files" c2Set).title_unicode =
        c2Beatmap.Metadata.TitleUnicode ∧
      (extractSet c2Fs "/AppData/osu/files" c2Set).tags = c2Beatmap.Metadata.Tags ∧
      (extractSet c2Fs "/AppData/osu/files" c2Set).total_time = some c2Beatmap.Length ∧
      (extractSet c2Fs "/AppData/osu/files" c2Set).bpm = some c2Beatmap.BPM :=
  primary_beatmap_fields c2Fs "/AppData/osu/files" c2Set c2Beatmap [] rfl

/-- C2: the end-to-end scenario: one set (online ID 42, hash `abc`), one
beatmap (duration 180.5, tempo 174), usages mapping `track.mp3` to
`deadbeef` and `bg.jpg` to `f00dface`, and only `<root>/files/d/de/deadbeef`
on disk, yields exactly one output record with the stated fields and
`background_path` undefined. -/
theorem end_to_end_scenario :
    getAsBeatmapData c2Fs "/AppData" (openDb [c2Set] true) =
      Except.ok ([{ id := 42, artist := some "Artist",
                    artist_unicode := some "ArtistU",
                    title := some "Song", title_unicode := some "SongU",
                    audio := some "track.mp3", audio_hash := some "deadbeef",
                    audio_path := some "/AppData/osu/files/d/de/deadbeef",
                    background := some "bg.jpg",
                    background_hash := some "f00dface",
                    background_path := none, hash := some "abc",
                    tags := some "tags", total_time := some (180.5 : ℚ),
                    bpm := some 174 }],
        ["Data loaded."]) := rfl

/-- C4 counterexample: resolving an absent hash does not short-circuit: a
glob search is still issued (for the literal pattern
`<root>/undefined/undefined/undefined`), and on a file system that contains
an entry at that literal path the result is even non-empty. -/
theorem resolve_absent_hash_counterexample :
    resolveSearches "/R" none = ["/R/undefined/undefined/undefined"] ∧
      resolvePaths ["/R/undefined/undefined/undefined"] "/R" none =
        ["/R/undefined/undefined/undefined"] :=
  ⟨rfl, rfl⟩

/-- C4 amended: for every storage root, resolving an absent hash does not
throw, but it issues exactly one glob search, whose pattern substitutes the
literal text `undefined` for the hash and for both shard components; the
result is empty provided the file system has no entry at that literal
degenerate path. -/
theorem resolve_absent_hash_behavior (root : String) (fs : List String) :
    resolveSearches root none = [globPattern root none] ∧
      globPattern root none = root ++ "/undefined/undefined/undefined" ∧
      (globPattern root none ∉ fs → resolvePaths fs root none = []) :=
  ⟨rfl, globPattern_none root, fun h => globSearch_eq_nil fs _ h⟩

/-- On a successfully opened database, `getAsBeatmapData` returns the
per-set extraction in storage order together with the loop trace and the
terminal notification. -/
theorem getAsBeatmapData_open (fs : List String) (appData : String)
    (sets : List BeatmapSet) (w : Bool) :
    getAsBeatmapData fs appData (openDb sets w) =
      Except.ok (sets.map (extractSet fs (osuFilesRoot appData)),
        (extractLoop w fs (osuFilesRoot appData) sets.length sets 0).2 ++
          sendDebugData w "Data loaded.") := by
  show Except.ok ((extractLoop w fs (osuFilesRoot appData) sets.length sets 0).1,
    (extractLoop w fs (osuFilesRoot appData) sets.length sets 0).2 ++
      sendDebugData w "Data loaded.") = _
  rw [extractLoop_fst]

/-- C3 counterexample: a set with an empty beatmap collection and no file
usages (so no usage's filename matches), extracted over a file system that
happens to contain an entry at the literal degenerate path
`<root>/undefined/undefined/undefined`, gets a *defined* `audio_path` even
though its `audio_hash` is undefined: the pass still globs for the literal
`undefined` pattern instead of short-circuiting. -/
theorem soft_gaps_path_counterexample :
    gapSet.Files = [] ∧
      getAsBeatmapData gapFs "/A" (openDb [gapSet] false) =
        Except.ok ([extractSet gapFs "/A/osu/files" gapSet], []) ∧
      (extractSet gapFs "/A/osu/files" gapSet).audio_hash = none ∧
      (extractSet gapFs "/A/osu/files" gapSet).audio_path =
        some "/A/osu/files/undefined/undefined/undefined" :=
  ⟨rfl, rfl, rfl, rfl⟩

/-- C3 amended: soft data-gaps never abort the pass.  An empty `Beatmaps`
collection leaves every primary-beatmap-derived field undefined; when no
`NamedFileUsage` entry's filename matches the audio (or background)
filename, the corresponding hash is undefined and the corresponding path is
undefined provided the file system has no entry at the literal degenerate
path `<root>/undefined/undefined/undefined` (which the pass still globs
for); and the loop always completes, producing exactly one output record per
set. -/
theorem soft_gaps_absorbed (fs : List String) (root : String)
    (set : BeatmapSet) :
    (set.Beatmaps = [] →
      (extractSet fs root set).artist = none ∧
        (extractSet fs root set).artist_unicode = none ∧
        (extractSet fs root set).title = none ∧
        (extractSet fs root set).title_unicode = none ∧
        (extractSet fs root set).tags = none ∧
        (extractSet fs root set).total_time = none ∧
        (extractSet fs root set).bpm = none ∧
        (extractSet fs root set).audio = none ∧
        (extractSet fs root set).background = none) ∧
    ((∀ f ∈ set.Files,
        looseEq f.Filename (set.Beatmaps.head?.bind fun b => b.Metadata.AudioFile) =
          false) →
      (extractSet fs root set).audio_hash = none ∧
        (globPattern root none ∉ fs → (extractSet fs root set).audio_path = none)) ∧
    ((∀ f ∈ set.Files,
        looseEq f.Filename
            (set.Beatmaps.head?.bind fun b => b.Metadata.BackgroundFile) =
          false) →
      (extractSet fs root set).background_hash = none ∧
        (globPattern root none ∉ fs →
          (extractSet fs root set).background_path = none)) ∧
    (∀ (w : Bool) (total : Nat) (sets : List BeatmapSet) (count : Nat),
      ((extractLoop w fs root total sets count).1).length = sets.length) := by
  refine ⟨?_, ?_, ?_, ?_⟩
  · intro h
    simp [extractSet, h]
  · intro hA
    have hfind : set.Files.find? (fun f =>
        looseEq f.Filename (set.Beatmaps.head?.bind fun b => b.Metadata.AudioFile)) =
          none :=
      List.find?_eq_none.mpr fun x hx => by simp [hA x hx]
    constructor
    · simp [extractSet, hfind]
    · intro hp
      simp [extractSet, hfind, resolvePaths, globSearch_eq_nil fs _ hp]
  · intro hB
    have hfind : set.Files.find? (fun f =>
        looseEq f.Filename
          (set.Beatmaps.head?.bind fun b => b.Metadata.BackgroundFile)) = none :=
      List.find?_eq_none.mpr fun x hx => by simp [hB x hx]
    constructor
    · simp [extractSet, hfind]
    · intro hp
      simp [extractSet, hfind, resolvePaths, globSearch_eq_nil fs _ hp]
  · intro w total sets count
    simp [extractLoop_fst]

/-- Witness for C3 amended: the gap set over a benign (empty) file system;
every hypothesis is discharged by evaluation. -/
theorem soft_gaps_absorbed_witness :
    (extractSet [] "/A/osu/files" gapSet).artist = none ∧
      (extractSet [] "/A/osu/files" gapSet).artist_unicode = none ∧
      (extractSet [] "/A/osu/files" gapSet).title = none ∧
      (extractSet [] "/A/osu/files" gapSet).title_unicode = none ∧
      (extractSet [] "/A/osu/files" gapSet).tags = none ∧
      (extractSet [] "/A/osu/files" gapSet).total_time = none ∧
      (extractSet [] "/A/osu/files" gapSet).bpm = none ∧
      (extractSet [] "/A/osu/files" gapSet).audio = none ∧
      (extractSet [] "/A/osu/files" gapSet).background = none ∧
      (extractSet [] "/A/osu/files" gapSet).audio_hash = none ∧
      (extractSet [] "/A/osu/files" gapSet).audio_path = none ∧
      (extractSet [] "/A/osu/files" gapSet).background_hash = none ∧
      (extractSet [] "/A/osu/files" gapSet).background_path = none ∧
      ((extractLoop false [] "/A/osu/files" 1 [gapSet] 0).1).length = 1 := by
  obtain ⟨h1, h2, h3, h4⟩ := soft_gaps_absorbed [] "/A/osu/files" gapSet
  obtain ⟨e1, e2, e3, e4, e5, e6, e7, e8, e9⟩ := h1 rfl
  obtain ⟨a1, a2⟩ := h2 (by decide)
  obtain ⟨b1, b2⟩ := h3 (by decide)
  exact ⟨e1, e2, e3, e4, e5, e6, e7, e8, e9, a1, a2 (by decide), b1,
    b2 (by decide), h4 false 1 [gapSet] 0⟩

/-- Witness for C4 amended at a concrete root and file system, with the
no-degenerate-entry hypothesis discharged by evaluation. -/
theorem resolve_absent_hash_behavior_witness :
    resolveSearches "/R" none = [globPattern "/R" none] ∧
      globPattern "/R" none = "/R" ++ "/undefined/undefined/undefined" ∧
      resolvePaths ["/R/files/a/ab/abcd"] "/R" none = [] :=
  ⟨(resolve_absent_hash_behavior "/R" ["/R/files/a/ab/abcd"]).1,
    (resolve_absent_hash_behavior "/R" ["/R/files/a/ab/abcd"]).2.1,
    (resolve_absent_hash_behavior "/R" ["/R/files/a/ab/abcd"]).2.2 (by decide)⟩

/-- C5: over N sets with a window attached, the pass returns the records in
storage order with a notification trace consisting of the loop's progress
emissions followed by exactly one terminal `"Data loaded."`; the loop emits
exactly `N / 50` progress notifications, their counters are strictly
increasing multiples of 50, and every emission is the progress string built
from its counter out of the total N. -/
theorem progress_cadence (fs : List String) (appData : String)
    (sets : List BeatmapSet) :
    getAsBeatmapData fs appData (openDb sets true) =
      Except.ok (sets.map (extractSet fs (osuFilesRoot appData)),
        (extractTrace fs (osuFilesRoot appData) sets.length sets 0).map Prod.snd ++
          ["Data loaded."]) ∧
    (extractTrace fs (osuFilesRoot appData) sets.length sets 0).length =
      sets.length / 50 ∧
    ((extractTrace fs (osuFilesRoot appData) sets.length sets 0).map
        Prod.fst).Pairwise (· < ·) ∧
    ∀ p ∈ extractTrace fs (osuFilesRoot appData) sets.length sets 0,
      p.1 % 50 = 0 ∧ ∃ t, p.2 = progressMsg t p.1 sets.length := by
  refine ⟨?_, ?_, ?_, ?_⟩
  · rw [getAsBeatmapData_open, extractLoop_snd_trace]
    rfl
  · simpa using extractTrace_length fs (osuFilesRoot appData) sets.length sets 0
  · rw [List.pairwise_map]
    exact extractTrace_pairwise fs (osuFilesRoot appData) sets.length sets 0
  · intro p hp
    obtain ⟨h1, -, -, h4⟩ :=
      extractTrace_mem fs (osuFilesRoot appData) sets.length sets 0 p hp
    exact ⟨h1, h4⟩

/-- Witness for C5 over a store of exactly 50 sets (one progress emission
plus the terminal notification). -/
theorem progress_cadence_witness :
    getAsBeatmapData [] "/A" (openDb (List.replicate 50 gapSet) true) =
      Except.ok ((List.replicate 50 gapSet).map (extractSet [] (osuFilesRoot "/A")),
        (extractTrace [] (osuFilesRoot "/A") (List.replicate 50 gapSet).length
          (List.replicate 50 gapSet) 0).map Prod.snd ++ ["Data loaded."]) ∧
    (extractTrace [] (osuFilesRoot "/A") (List.replicate 50 gapSet).length
      (List.replicate 50 gapSet) 0).length = (List.replicate 50 gapSet).length / 50 ∧
    ((extractTrace [] (osuFilesRoot "/A") (List.replicate 50 gapSet).length
      (List.replicate 50 gapSet) 0).map Prod.fst).Pairwise (· < ·) ∧
    ∀ p ∈ extractTrace [] (osuFilesRoot "/A") (List.replicate 50 gapSet).length
        (List.replicate 50 gapSet) 0,
      p.1 % 50 = 0 ∧ ∃ t, p.2 = progressMsg t p.1 (List.replicate 50 gapSet).length :=
  progress_cadence [] "/A" (List.replicate 50 gapSet)

/-- C6: the returned record sequence is in exactly the storage order of the
`BeatmapSet` records, and permuting the `Beatmaps` or `Files` sub-collection
inside any single set leaves the order of the set-level output records
(identified by their `id` and `hash`) unchanged, position by position. -/
theorem output_order_preserved (fs : List String) (appData : String) (w : Bool)
    (sets sets' : List BeatmapSet) :
    (∃ ns, getAsBeatmapData fs appData (openDb sets w) =
      Except.ok (sets.map (extractSet fs (osuFilesRoot appData)), ns)) ∧
    (List.Forall₂ subPerm sets sets' →
      List.Forall₂ (fun d d' => d.id = d'.id ∧ d.hash = d'.hash)
        (sets.map (extractSet fs (osuFilesRoot appData)))
        (sets'.map (extractSet fs (osuFilesRoot appData)))) := by
  constructor
  · exact ⟨_, getAsBeatmapData_open fs appData sets w⟩
  · intro h
    induction h with
    | nil => exact List.Forall₂.nil
    | cons hp _ ih => exact List.Forall₂.cons ⟨hp.1, hp.2.1⟩ ih

/-- Witness for C6: the scenario set against itself with `Files` reversed. -/
theorem output_order_preserved_witness :
    List.Forall₂ (fun d d' => d.id = d'.id ∧ d.hash = d'.hash)
      ([c2Set].map (extractSet c2Fs (osuFilesRoot "/AppData")))
      ([c2SetPermuted].map (extractSet c2Fs (osuFilesRoot "/AppData"))) :=
  (output_order_preserved c2Fs "/AppData" true [c2Set] [c2SetPermuted]).2
    (List.Forall₂.cons ⟨rfl, rfl, List.Perm.refl _, by decide⟩ List.Forall₂.nil)

/-- C7: for every hash h the resolver issues exactly one search, at the
two-level sharded location `<base>/<h[0:1]>/<h[0:2]>/<h>` where `<base>` is
the application-data directory joined with `osu/files`; every returned path
is backslash-free (separators normalized to forward slashes); and the first
returned match is the one used as the record's resolved asset path. -/
theorem shard_pattern_resolution (appData h : String) (fs : List String)
    (set : BeatmapSet) :
    resolveSearches (osuFilesRoot appData) (some h) =
      [osuFilesRoot appData ++ "/" ++ h.take 1 ++ "/" ++ h.take 2 ++ "/" ++ h] ∧
    osuFilesRoot appData = appData ++ "/osu/files" ∧
    (∀ p ∈ resolvePaths fs (osuFilesRoot appData) (some h),
      ∀ c ∈ p.data, c ≠ '\\') ∧
    (extractSet fs (osuFilesRoot appData) set).audio_path =
      (resolvePaths fs (osuFilesRoot appData)
        (extractSet fs (osuFilesRoot appData) set).audio_hash)[0]? ∧
    (extractSet fs (osuFilesRoot appData) set).background_path =
      (resolvePaths fs (osuFilesRoot appData)
        (extractSet fs (osuFilesRoot appData) set).background_hash)[0]? := by
  refine ⟨rfl, rfl, ?_, rfl, rfl⟩
  intro p hp c hc
  simp only [resolvePaths, globSearch, List.mem_map] at hp
  obtain ⟨q, -, rfl⟩ := hp
  simp only [normalizeSeps, List.mem_map] at hc
  obtain ⟨c', -, rfl⟩ := hc
  by_cases hcc : c' = '\\' <;> simp [hcc]

/-- Witness for C7 at the scenario store and hash `deadbeef`. -/
theorem shard_pattern_resolution_witness :
    resolveSearches (osuFilesRoot "/AppData") (some "deadbeef") =
      [osuFilesRoot "/AppData" ++ "/" ++ "deadbeef".take 1 ++ "/" ++
        "deadbeef".take 2 ++ "/" ++ "deadbeef"] ∧
    osuFilesRoot "/AppData" = "/AppData" ++ "/osu/files" ∧
    (∀ p ∈ resolvePaths c2Fs (osuFilesRoot "/AppData") (some "deadbeef"),
      ∀ c ∈ p.data, c ≠ '\\') ∧
    (extractSet c2Fs (osuFilesRoot "/AppData") c2Set).audio_path =
      (resolvePaths c2Fs (osuFilesRoot "/AppData")
        (extractSet c2Fs (osuFilesRoot "/AppData") c2Set).audio_hash)[0]? ∧
    (extractSet c2Fs (osuFilesRoot "/AppData") c2Set).background_path =
      (resolvePaths c2Fs (osuFilesRoot "/AppData")
        (extractSet c2Fs (osuFilesRoot "/AppData") c2Set).background_hash)[0]? :=
  shard_pattern_resolution "/AppData" "deadbeef" c2Fs c2Set

/-- C8: invoking `getAsBeatmapData` or `getObjects` on an instance whose
connection was never opened (the `connection` field is null, as after the
constructor) fails immediately with the "not connected" error; no output is
produced. -/
theorem not_connected_precondition (fs : List String) (appData : String)
    (db : OsuLazerDatabase) (w : Bool) (h : db.connection = none) :
    (newDatabase w).connection = none ∧
    getAsBeatmapData fs appData db =
      Except.error "You should open connection at first." ∧
    getObjects db = Except.error "You should open connection at first." := by
  obtain ⟨c, win⟩ := db
  obtain rfl : c = none := h
  exact ⟨rfl, rfl, rfl⟩

/-- Witness for C8 on a freshly constructed instance. -/
theorem not_connected_precondition_witness :
    (newDatabase false).connection = none ∧
    getAsBeatmapData [] "/A" (newDatabase false) =
      Except.error "You should open connection at first." ∧
    getObjects (newDatabase false) =
      Except.error "You should open connection at first." :=
  not_connected_precondition [] "/A" (newDatabase false) false rfl

/-- C9: `close` does not reset the stored connection to null: after closing
an instance whose connection was opened, the `connection` field is still
non-null, and a subsequent `getAsBeatmapData` or `getObjects` call passes
the connection check — it does not raise the "not connected" precondition
error, proceeding against the already-closed connection instead. -/
theorem close_keeps_connection (fs : List String) (appData : String)
    (db : OsuLazerDatabase) (conn : RealmConn) (h : db.connection = some conn) :
    (close db).connection ≠ none ∧
    getAsBeatmapData fs appData (close db) ≠
      Except.error "You should open connection at first." ∧
    getObjects (close db) ≠
      Except.error "You should open connection at first." := by
  obtain ⟨c, win⟩ := db
  obtain rfl : c = some conn := h
  refine ⟨by simp [close], ?_, ?_⟩
  · show Except.error "Cannot access realm that has been closed." ≠ _
    simp
  · show Except.error "Cannot access realm that has been closed." ≠ _
    simp

/-- Witness for C9 on a freshly opened then closed instance. -/
theorem close_keeps_connection_witness :
    (close (openDb [] true)).connection ≠ none ∧
    getAsBeatmapData [] "/A" (close (openDb [] true)) ≠
      Except.error "You should open connection at first." ∧
    getObjects (close (openDb [] true)) ≠
      Except.error "You should open connection at first." :=
  close_keeps_connection [] "/A" (openDb [] true) { sets := [], isOpen := true } rfl

/-- C10: with no window attached, `sendDebugData` is a no-op, so a whole
pass emits zero notifications (no progress, no terminal "data loaded"),
while the returned record sequence is exactly the one a window-attached
instance returns. -/
theorem null_window_no_notifications (fs : List String) (appData : String)
    (sets : List BeatmapSet) (d : String) :
    sendDebugData false d = [] ∧
    getAsBeatmapData fs appData (openDb sets false) =
      Except.ok (sets.map (extractSet fs (osuFilesRoot appData)), []) ∧
    getAsBeatmapData fs appData (openDb sets true) =
      Except.ok (sets.map (extractSet fs (osuFilesRoot appData)),
        (extractTrace fs (osuFilesRoot appData) sets.length sets 0).map Prod.snd ++
          ["Data loaded."]) := by
  refine ⟨rfl, ?_, ?_⟩
  · rw [getAsBeatmapData_open, extractLoop_snd_noWindow]
    rfl
  · rw [getAsBeatmapData_open, extractLoop_snd_trace]
    rfl

end Osutify
